import Mathlib

/-!
Shallow embedding of the scheduled-delivery core of the wa-mobile-scheduler
server (src/server.js, and the earlier variant src/unnamed/part_000).

The embedded state consists of the pieces of mutable state the routes touch:
the `scheduledTasks` Map (modelled as an association list in which every
operation keeps at most one entry per key, exactly as a JS Map does), the
set of files in the upload directory, the armed `setTimeout` timers, the
timer callbacks currently suspended at `await client.sendMessage` (the
callback body runs synchronously up to that await, then yields to the event
loop), messages handed to the delivery client, socket events emitted via
`io.emit`, and `console.error` log entries.

External collaborators are modelled by their observable effect only:
`new Date(s).getTime()` becomes a `parseDate : String → Option Int`
parameter (`none` standing for `NaN`, since JS comparisons with `NaN` are
false), `client.sendMessage` becomes a boolean success/failure outcome, and
Node's `setTimeout` delay coercion (every delay outside `[1, 2^31 - 1]`,
including `NaN`, becomes `1`) is `effectiveDelay`.
-/

namespace WaSched

/-- An entry of the `scheduledTasks` Map: `{ timeout, filePath }`. -/
structure Task where
  timeout : Nat
  filePath : String
  deriving Repr, DecidableEq

/-- An armed `setTimeout` timer together with the values its callback closed
over (`groupId`, `file.path`, `uiId`) and the delay it was armed with. -/
structure Timer where
  tid : Nat
  groupId : String
  filePath : String
  uiId : String
  delay : Int
  deriving Repr, DecidableEq

/-- A socket event emitted by the scheduling core via `io.emit`. -/
inductive Event where
  | message_sent (id : String)
  deriving Repr, DecidableEq

/-- The mutable state of the server that the schedule/cancel routes and the
timer callbacks read and write. -/
structure ServerState where
  scheduledTasks : List (String × Task)
  files : List String
  timers : List Timer
  inflight : List Timer
  sentMessages : List (String × String)
  events : List Event
  errorLog : List String
  deriving Repr, DecidableEq

/-- The state at process start: empty map, empty upload directory. -/
def initialState : ServerState :=
  { scheduledTasks := [], files := [], timers := [], inflight := [],
    sentMessages := [], events := [], errorLog := [] }

/-- JS `scheduledTasks.has(k)`. -/
def hasTask (m : List (String × Task)) (k : String) : Bool :=
  (m.find? (fun p => p.1 == k)).isSome

/-- JS `scheduledTasks.get(k)` (as an option). -/
def getTask (m : List (String × Task)) (k : String) : Option Task :=
  (m.find? (fun p => p.1 == k)).map (fun p => p.2)

/-- JS `scheduledTasks.delete(k)`. -/
def eraseTask (m : List (String × Task)) (k : String) : List (String × Task) :=
  m.filter (fun p => p.1 != k)

/-- JS `scheduledTasks.set(k, v)`: overwrites any existing entry for `k`. -/
def setTask (m : List (String × Task)) (k : String) (v : Task) :
    List (String × Task) :=
  (k, v) :: eraseTask m k

/-- A parsed multipart request to `POST /api/schedule`: the uploaded file
(`req.file`, `none` when multer received no file), and the form fields
`groupId`, `scheduleTime` (the raw string) and `uiId` (a missing or empty
field is the empty string, which is falsy like `undefined`). -/
structure ScheduleRequest where
  file : Option String
  groupId : String
  scheduleTime : String
  uiId : String
  deriving Repr, DecidableEq

/-- Response of `POST /api/schedule` in src/server.js:
400 No file, 400 Past time, or 200 Scheduled. -/
inductive ScheduleResp where
  | noFile
  | pastTime
  | scheduled (id : String)
  deriving Repr, DecidableEq

/-- Response of `POST /api/schedule` in src/unnamed/part_000:
400 Missing required data, 400 past time, or 200 Scheduled. -/
inductive ScheduleResp0 where
  | missingData
  | pastTime0
  | scheduled0 (id : String)
  deriving Repr, DecidableEq

/-- Response of `POST /api/cancel`: 200 Cancelled or 404 Not found. -/
inductive CancelResp where
  | cancelled
  | notFound
  deriving Repr, DecidableEq

/-- Multer's disk storage writes the uploaded file before the route handler
runs: when the request carries a file, its path appears in the upload
directory. -/
def uploadStep (σ : ServerState) (r : ScheduleRequest) : ServerState :=
  match r.file with
  | some p => { σ with files := p :: σ.files }
  | none => σ

/-- The test `delay < 0` of the source, where
`delay = new Date(scheduleTime).getTime() - Date.now()`: when the date is
unparseable the delay is `NaN` and `NaN < 0` is false in JS. -/
def delayNegative (parseDate : String → Option Int) (s : String) (now : Int) :
    Bool :=
  match parseDate s with
  | some t => decide (t - now < 0)
  | none => false

/-- The delay `setTimeout` actually arms: Node coerces any delay outside
`[1, 2^31 - 1]` — including `NaN` and `0` — to `1` millisecond. -/
def effectiveDelay (pt : Option Int) (now : Int) : Int :=
  match pt with
  | some t => if t - now < 1 then 1 else t - now
  | none => 1

/-- The handler of `POST /api/schedule` in src/server.js (lines 86-113):
reject when no file; compute `delay`; if `delay < 0` unlink the file and
reject Past time; otherwise arm a timer and insert the task. -/
def postSchedule (parseDate : String → Option Int) (now : Int) (freshTid : Nat)
    (σ : ServerState) (r : ScheduleRequest) : ServerState × ScheduleResp :=
  let σu := uploadStep σ r
  match r.file with
  | none => (σu, ScheduleResp.noFile)
  | some p =>
    if delayNegative parseDate r.scheduleTime now then
      ({ σu with files := σu.files.erase p }, ScheduleResp.pastTime)
    else
      let tm : Timer :=
        ⟨freshTid, r.groupId, p, r.uiId,
          effectiveDelay (parseDate r.scheduleTime) now⟩
      ({ σu with
          timers := tm :: σu.timers,
          scheduledTasks := setTask σu.scheduledTasks r.uiId ⟨freshTid, p⟩ },
        ScheduleResp.scheduled r.uiId)

/-- The handler of `POST /api/schedule` in src/unnamed/part_000 (lines
124-175): additionally rejects when `groupId`, `scheduleTime` or `uiId` is
falsy — and that rejection returns WITHOUT deleting the uploaded file. -/
def postSchedule0 (parseDate : String → Option Int) (now : Int)
    (freshTid : Nat) (σ : ServerState) (r : ScheduleRequest) :
    ServerState × ScheduleResp0 :=
  let σu := uploadStep σ r
  match r.file with
  | none => (σu, ScheduleResp0.missingData)
  | some p =>
    if r.groupId == "" || r.scheduleTime == "" || r.uiId == "" then
      (σu, ScheduleResp0.missingData)
    else if delayNegative parseDate r.scheduleTime now then
      ({ σu with files := σu.files.erase p }, ScheduleResp0.pastTime0)
    else
      let tm : Timer :=
        ⟨freshTid, r.groupId, p, r.uiId,
          effectiveDelay (parseDate r.scheduleTime) now⟩
      ({ σu with
          timers := tm :: σu.timers,
          scheduledTasks := setTask σu.scheduledTasks r.uiId ⟨freshTid, p⟩ },
        ScheduleResp0.scheduled0 r.uiId)

/-- The handler of `POST /api/cancel` in src/server.js (lines 115-126): if
the id is in the map, clear its timeout, synchronously unlink its file if it
exists, delete the entry and answer Cancelled; otherwise answer 404. -/
def postCancel (σ : ServerState) (id : String) : ServerState × CancelResp :=
  match getTask σ.scheduledTasks id with
  | some t =>
    ({ σ with
        timers := σ.timers.filter (fun tm => tm.tid != t.timeout),
        files := if σ.files.contains t.filePath then σ.files.erase t.filePath
                 else σ.files,
        scheduledTasks := eraseTask σ.scheduledTasks id },
      CancelResp.cancelled)
  | none => (σ, CancelResp.notFound)

/-- The timer callback of src/server.js (lines 99-109) up to its first
suspension point: the timer fires (leaves the armed set) and the body runs
synchronously — if the file exists, the media is read and
`client.sendMessage` is awaited (the callback becomes in-flight); if the
file does not exist, the body skips to `scheduledTasks.delete(uiId)` with no
suspension. -/
def fireBegin (σ : ServerState) (tm : Timer) : ServerState :=
  let σt := { σ with timers := σ.timers.filter (fun x => x.tid != tm.tid) }
  if σ.files.contains tm.filePath then
    { σt with inflight := tm :: σt.inflight }
  else
    { σt with scheduledTasks := eraseTask σt.scheduledTasks tm.uiId }

/-- Resumption of the timer callback when `client.sendMessage` resolves:
emit `message_sent` with the task id, unlink the file (errors ignored), then
`scheduledTasks.delete(uiId)`. -/
def fireCompleteSuccess (σ : ServerState) (tm : Timer) : ServerState :=
  { σ with
      inflight := σ.inflight.filter (fun x => x.tid != tm.tid),
      sentMessages := (tm.groupId, tm.filePath) :: σ.sentMessages,
      events := Event.message_sent tm.uiId :: σ.events,
      files := σ.files.erase tm.filePath,
      scheduledTasks := eraseTask σ.scheduledTasks tm.uiId }

/-- Resumption of the timer callback when `client.sendMessage` rejects: the
catch block only logs the error — `scheduledTasks.delete(uiId)` sits inside
the try block after the await, so it is skipped. -/
def fireCompleteFailure (σ : ServerState) (tm : Timer) : ServerState :=
  { σ with
      inflight := σ.inflight.filter (fun x => x.tid != tm.tid),
      errorLog := tm.uiId :: σ.errorLog }

/-- A timer firing with no interleaved request: the callback begins and, if
a delivery was started, completes with the given send outcome. -/
def fireTimer (σ : ServerState) (tm : Timer) (sendOk : Bool) : ServerState :=
  let σ1 := fireBegin σ tm
  if σ.files.contains tm.filePath then
    if sendOk then fireCompleteSuccess σ1 tm else fireCompleteFailure σ1 tm
  else σ1

/-! Map lemmas shared by the claim proofs. -/

theorem find?_eraseTask (m : List (String × Task)) (k : String) :
    (eraseTask m k).find? (fun p => p.1 == k) = none := by
  rw [List.find?_eq_none]
  intro x hx
  have hx2 := (List.mem_filter.mp hx).2
  simp only [bne_iff_ne, ne_eq, decide_eq_true_eq] at hx2
  simp [hx2]

theorem getTask_eraseTask (m : List (String × Task)) (k : String) :
    getTask (eraseTask m k) k = none := by
  simp [getTask, find?_eraseTask]

theorem hasTask_eraseTask (m : List (String × Task)) (k : String) :
    hasTask (eraseTask m k) k = false := by
  simp [hasTask, find?_eraseTask]

theorem getTask_setTask (m : List (String × Task)) (k : String) (v : Task) :
    getTask (setTask m k v) k = some v := by
  simp [getTask, setTask, List.find?_cons]

theorem exists_getTask_of_hasTask (m : List (String × Task)) (k : String)
    (h : hasTask m k = true) : ∃ t, getTask m k = some t := by
  unfold hasTask at h
  cases hf : m.find? (fun p => p.1 == k) with
  | none => rw [hf] at h; simp at h
  | some x => exact ⟨x.2, by simp [getTask, hf]⟩

/-! Concrete scenario used for claim C1: schedule a task, let its timer fire
and suspend at the sendMessage await, then serve a cancel request. -/

def c1_parse : String → Option Int :=
  fun s => if s == "T50" then some 50 else none

def c1_req : ScheduleRequest :=
  { file := some "photo.jpg", groupId := "grp@x", scheduleTime := "T50",
    uiId := "ui-1" }

def c1_afterSchedule : ServerState :=
  (postSchedule c1_parse 0 1 initialState c1_req).1

def c1_timer : Timer :=
  { tid := 1, groupId := "grp@x", filePath := "photo.jpg", uiId := "ui-1",
    delay := 50 }

def c1_duringDelivery : ServerState := fireBegin c1_afterSchedule c1_timer

def c1_cancelOut : ServerState × CancelResp :=
  postCancel c1_duringDelivery "ui-1"

def c1_final : ServerState := fireCompleteSuccess c1_cancelOut.1 c1_timer

/-- C1: the claim fails on the code. When the timer callback has begun its
delivery attempt (suspended at the await of sendMessage), the task entry is
still in the map — `scheduledTasks.delete` only runs after the await — so a
concurrent cancel finds the entry and performs the full cancellation effects
(Cancelled returned, file deleted, entry removed) while the delivery also
completes (message sent, message_sent emitted): both outcome sets occur, and
cancel returns Cancelled, not NotFound. -/
theorem c1_cancel_races_delivery_both_effects :
    c1_timer ∈ c1_afterSchedule.timers ∧
    c1_duringDelivery.inflight = [c1_timer] ∧
    c1_cancelOut.2 = CancelResp.cancelled ∧
    hasTask c1_cancelOut.1.scheduledTasks "ui-1" = false ∧
    "photo.jpg" ∉ c1_cancelOut.1.files ∧
    ("grp@x", "photo.jpg") ∈ c1_final.sentMessages ∧
    Event.message_sent "ui-1" ∈ c1_final.events := by decide

/-- C9: calling cancel twice in sequence on an id that is pending at the
first call answers Cancelled and then NotFound, never Cancelled twice: the
first call deletes the map entry, so the second finds nothing. -/
theorem c9_cancel_idempotent (σ : ServerState) (id : String)
    (h : hasTask σ.scheduledTasks id = true) :
    (postCancel σ id).2 = CancelResp.cancelled ∧
    (postCancel (postCancel σ id).1 id).2 = CancelResp.notFound := by
  obtain ⟨t, ht⟩ := exists_getTask_of_hasTask σ.scheduledTasks id h
  refine ⟨by simp [postCancel, ht], ?_⟩
  simp [postCancel, ht, getTask_eraseTask]

def c9_state : ServerState :=
  { initialState with
      scheduledTasks := [("ui-9", ⟨9, "i.jpg"⟩)],
      files := ["i.jpg"],
      timers := [⟨9, "g@x", "i.jpg", "ui-9", 100⟩] }

/-- Witness for C9 at a concrete one-task state. -/
theorem c9_cancel_idempotent_witness :
    (postCancel c9_state "ui-9").2 = CancelResp.cancelled ∧
    (postCancel (postCancel c9_state "ui-9").1 "ui-9").2 =
      CancelResp.notFound :=
  c9_cancel_idempotent c9_state "ui-9" (by decide)

/-- C10: a schedule request with a file but an unparseable scheduleTime is
accepted, not rejected: the delay is NaN, `NaN < 0` is false so the
past-time branch is skipped, a task is created, and the armed timer has the
Node-coerced delay 1 — it fires immediately. -/
theorem c10_unparseable_time_accepted (parseDate : String → Option Int)
    (now : Int) (freshTid : Nat) (σ : ServerState) (r : ScheduleRequest)
    (p : String) (hfile : r.file = some p)
    (hnan : parseDate r.scheduleTime = none) :
    (postSchedule parseDate now freshTid σ r).2 =
      ScheduleResp.scheduled r.uiId ∧
    getTask (postSchedule parseDate now freshTid σ r).1.scheduledTasks
      r.uiId = some ⟨freshTid, p⟩ ∧
    (postSchedule parseDate now freshTid σ r).1.timers =
      ⟨freshTid, r.groupId, p, r.uiId, 1⟩ :: σ.timers := by
  simp [postSchedule, uploadStep, hfile, delayNegative, hnan, effectiveDelay,
    getTask_setTask]

def c10_req : ScheduleRequest :=
  { file := some "n.jpg", groupId := "g@x", scheduleTime := "garbage",
    uiId := "ui-10" }

/-- Witness for C10 at a concrete request whose time string parses to NaN. -/
theorem c10_unparseable_time_accepted_witness :
    (postSchedule (fun _ => none) 0 7 initialState c10_req).2 =
      ScheduleResp.scheduled "ui-10" ∧
    getTask (postSchedule (fun _ => none) 0 7 initialState
      c10_req).1.scheduledTasks "ui-10" = some ⟨7, "n.jpg"⟩ ∧
    (postSchedule (fun _ => none) 0 7 initialState c10_req).1.timers =
      ⟨7, "g@x", "n.jpg", "ui-10", 1⟩ :: initialState.timers :=
  c10_unparseable_time_accepted (fun _ => none) 0 7 initialState c10_req
    "n.jpg" rfl rfl

/-! Concrete scenario for claim C2: two schedule requests with the same id
while the first is still pending. -/

def c2_parse : String → Option Int :=
  fun s => if s == "T90" then some 90 else none

def c2_req1 : ScheduleRequest :=
  { file := some "a.jpg", groupId := "g@x", scheduleTime := "T90",
    uiId := "dup" }

def c2_req2 : ScheduleRequest :=
  { file := some "b.jpg", groupId := "g@x", scheduleTime := "T90",
    uiId := "dup" }

def c2_state1 : ServerState :=
  (postSchedule c2_parse 0 1 initialState c2_req1).1

def c2_out2 : ServerState × ScheduleResp :=
  postSchedule c2_parse 10 2 c2_state1 c2_req2

/-- C2 counterexample: the code never checks for a duplicate id. A second
schedule request with the id of a still-pending task is accepted as
Scheduled, its file is kept, the registry entry is overwritten with the new
task, and the first task's timer is still armed — nothing is rejected and
the existing task is not left unchanged. -/
theorem c2_duplicate_id_not_rejected :
    hasTask c2_state1.scheduledTasks "dup" = true ∧
    c2_out2.2 = ScheduleResp.scheduled "dup" ∧
    getTask c2_out2.1.scheduledTasks "dup" = some ⟨2, "b.jpg"⟩ ∧
    "b.jpg" ∈ c2_out2.1.files ∧
    (⟨1, "g@x", "a.jpg", "dup", 90⟩ : Timer) ∈ c2_out2.1.timers := by decide

/-- C2 amended: a schedule request whose id equals the id of a pending task
is accepted as Scheduled, not rejected: the registry entry is overwritten
with the new task, the new file is kept on disk, and a new timer is armed in
addition to the old one (which stays armed). -/
theorem c2_amended_duplicate_overwrites (parseDate : String → Option Int)
    (now : Int) (freshTid : Nat) (σ : ServerState) (r : ScheduleRequest)
    (p : String) (hfile : r.file = some p)
    (_hdup : hasTask σ.scheduledTasks r.uiId = true)
    (hnp : delayNegative parseDate r.scheduleTime now = false) :
    (postSchedule parseDate now freshTid σ r).2 =
      ScheduleResp.scheduled r.uiId ∧
    getTask (postSchedule parseDate now freshTid σ r).1.scheduledTasks
      r.uiId = some ⟨freshTid, p⟩ ∧
    (postSchedule parseDate now freshTid σ r).1.files = p :: σ.files ∧
    (postSchedule parseDate now freshTid σ r).1.timers =
      ⟨freshTid, r.groupId, p, r.uiId,
        effectiveDelay (parseDate r.scheduleTime) now⟩ :: σ.timers := by
  simp [postSchedule, uploadStep, hfile, hnp, getTask_setTask]

/-- Witness for the amended C2 at the concrete duplicate request. -/
theorem c2_amended_duplicate_overwrites_witness :
    (postSchedule c2_parse 10 2 c2_state1 c2_req2).2 =
      ScheduleResp.scheduled "dup" ∧
    getTask (postSchedule c2_parse 10 2 c2_state1
      c2_req2).1.scheduledTasks "dup" = some ⟨2, "b.jpg"⟩ ∧
    (postSchedule c2_parse 10 2 c2_state1 c2_req2).1.files =
      "b.jpg" :: c2_state1.files ∧
    (postSchedule c2_parse 10 2 c2_state1 c2_req2).1.timers =
      ⟨2, "g@x", "b.jpg", "dup", effectiveDelay (c2_parse "T90") 10⟩ ::
        c2_state1.timers :=
  c2_amended_duplicate_overwrites c2_parse 10 2 c2_state1 c2_req2 "b.jpg"
    rfl (by decide) (by decide)

/-! Concrete scenario for claim C3: a scheduled task whose delivery attempt
fails at fire time. -/

def c3_parse : String → Option Int :=
  fun s => if s == "T30" then some 30 else none

def c3_req : ScheduleRequest :=
  { file := some "f.jpg", groupId := "g@x", scheduleTime := "T30",
    uiId := "ui-3" }

def c3_state1 : ServerState :=
  (postSchedule c3_parse 0 3 initialState c3_req).1

def c3_timer : Timer :=
  { tid := 3, groupId := "g@x", filePath := "f.jpg", uiId := "ui-3",
    delay := 30 }

def c3_final : ServerState := fireTimer c3_state1 c3_timer false

/-- C3 counterexample: when the timer fires and the delivery attempt fails,
the error is logged but the entry is NOT removed from the mapping —
`scheduledTasks.delete(uiId)` sits inside the try block after the await and
the catch skips it. The task is terminal (its timer fired and its callback
finished: no armed timer, nothing in flight) yet it remains in the registry,
refuting the presence-iff-Pending invariant. -/
theorem c3_failed_delivery_entry_remains :
    c3_timer ∈ c3_state1.timers ∧
    "ui-3" ∈ c3_final.errorLog ∧
    hasTask c3_final.scheduledTasks "ui-3" = true ∧
    c3_final.timers = [] ∧
    c3_final.inflight = [] := by decide

/-- C3 amended: when the timer fires (file present) and the delivery attempt
fails, the error is logged and the task entry remains in the mapping
unchanged; the payload file is not cleaned up either. -/
theorem c3_amended_failure_keeps_entry (σ : ServerState) (tm : Timer)
    (hfile : σ.files.contains tm.filePath = true) :
    (fireTimer σ tm false).scheduledTasks = σ.scheduledTasks ∧
    (fireTimer σ tm false).errorLog = tm.uiId :: σ.errorLog ∧
    (fireTimer σ tm false).files = σ.files := by
  have hmem : tm.filePath ∈ σ.files := by simpa using hfile
  simp [fireTimer, fireBegin, fireCompleteFailure, hmem]

/-- Witness for the amended C3 at the concrete failing delivery. -/
theorem c3_amended_failure_keeps_entry_witness :
    (fireTimer c3_state1 c3_timer false).scheduledTasks =
      c3_state1.scheduledTasks ∧
    (fireTimer c3_state1 c3_timer false).errorLog =
      "ui-3" :: c3_state1.errorLog ∧
    (fireTimer c3_state1 c3_timer false).files = c3_state1.files :=
  c3_amended_failure_keeps_entry c3_state1 c3_timer (by decide)

/-! Concrete scenario for claim C4: a schedule request whose triggerAt
equals the current time exactly. -/

def c4_parse : String → Option Int :=
  fun s => if s == "NOW" then some 100 else none

def c4_req : ScheduleRequest :=
  { file := some "c.jpg", groupId := "g@x", scheduleTime := "NOW",
    uiId := "ui-4" }

def c4_out : ServerState × ScheduleResp :=
  postSchedule c4_parse 100 4 initialState c4_req

/-- C4 counterexample: a triggerAt equal to the current time is not strictly
after it, yet the request is accepted: the computed delay 0 fails the
`delay < 0` test, the file is kept, a task is created and a timer is armed
(with the Node-coerced delay 1, so it fires immediately). -/
theorem c4_equal_time_accepted :
    c4_out.2 = ScheduleResp.scheduled "ui-4" ∧
    hasTask c4_out.1.scheduledTasks "ui-4" = true ∧
    c4_out.1.timers = [⟨4, "g@x", "c.jpg", "ui-4", 1⟩] ∧
    "c.jpg" ∈ c4_out.1.files := by decide

/-- C4 amended: a schedule request whose parsed triggerAt is strictly BEFORE
the current time is rejected with Past time, the uploaded file is deleted,
and no task is created and no timer armed; a triggerAt exactly equal to the
current time is instead accepted and fires immediately. -/
theorem c4_amended_strict_past_rejected (parseDate : String → Option Int)
    (now : Int) (freshTid : Nat) (σ : ServerState) (r : ScheduleRequest)
    (p : String) (t : Int) (hfile : r.file = some p)
    (hparse : parseDate r.scheduleTime = some t) (hpast : t < now) :
    (postSchedule parseDate now freshTid σ r).2 = ScheduleResp.pastTime ∧
    (postSchedule parseDate now freshTid σ r).1.files = σ.files ∧
    (postSchedule parseDate now freshTid σ r).1.scheduledTasks =
      σ.scheduledTasks ∧
    (postSchedule parseDate now freshTid σ r).1.timers = σ.timers := by
  have hneg : delayNegative parseDate r.scheduleTime now = true := by
    simp only [delayNegative, hparse, decide_eq_true_eq]
    omega
  simp [postSchedule, uploadStep, hfile, hneg, List.erase_cons_head]

def c4_pastReq : ScheduleRequest :=
  { file := some "p.jpg", groupId := "g@x", scheduleTime := "T50",
    uiId := "ui-4b" }

def c4_pastParse : String → Option Int :=
  fun s => if s == "T50" then some 50 else none

/-- Witness for the amended C4 at a concrete strictly-past request. -/
theorem c4_amended_strict_past_rejected_witness :
    (postSchedule c4_pastParse 100 5 initialState c4_pastReq).2 =
      ScheduleResp.pastTime ∧
    (postSchedule c4_pastParse 100 5 initialState c4_pastReq).1.files =
      initialState.files ∧
    (postSchedule c4_pastParse 100 5 initialState
      c4_pastReq).1.scheduledTasks = initialState.scheduledTasks ∧
    (postSchedule c4_pastParse 100 5 initialState c4_pastReq).1.timers =
      initialState.timers :=
  c4_amended_strict_past_rejected c4_pastParse 100 5 initialState c4_pastReq
    "p.jpg" 50 rfl rfl (by decide)

/-- C5: cancel on an id present in the registry (hence pending) answers 200
Cancelled, removes the payload file from disk, removes the entry from the
mapping and disarms the timer with the entry's timeout id; cancel on an id
that is absent (never scheduled, already sent, or already cancelled) answers
404 NotFound and leaves the whole state unchanged. -/
theorem c5_cancel_contract (σ : ServerState) (id : String) :
    (∀ t, getTask σ.scheduledTasks id = some t → σ.files.Nodup →
      (postCancel σ id).2 = CancelResp.cancelled ∧
      t.filePath ∉ (postCancel σ id).1.files ∧
      hasTask (postCancel σ id).1.scheduledTasks id = false ∧
      ∀ tm ∈ (postCancel σ id).1.timers, tm.tid ≠ t.timeout) ∧
    (getTask σ.scheduledTasks id = none →
      postCancel σ id = (σ, CancelResp.notFound)) := by
  constructor
  · intro t ht hnd
    refine ⟨by simp [postCancel, ht], ?_, ?_, ?_⟩
    · simp only [postCancel, ht]
      by_cases hc : σ.files.contains t.filePath
      · simp only [hc, if_pos]
        intro hmm
        exact absurd (hnd.mem_erase_iff.mp hmm).1 (by simp)
      · simp only [hc, if_neg, Bool.false_eq_true, not_false_eq_true]
        simpa using hc
    · simp [postCancel, ht, hasTask_eraseTask]
    · intro tm hmm
      simp only [postCancel, ht] at hmm
      have := (List.mem_filter.mp hmm).2
      simpa [bne_iff_ne] using this
  · intro h
    simp [postCancel, h]

def c5_state : ServerState :=
  { initialState with
      scheduledTasks := [("ui-5", ⟨5, "e.jpg"⟩)],
      files := ["e.jpg"],
      timers := [⟨5, "g@x", "e.jpg", "ui-5", 200⟩] }

/-- Witness for C5: a concrete pending task is cancelled with all four
effects, and a never-scheduled id gets NotFound with no change. -/
theorem c5_cancel_contract_witness :
    ((postCancel c5_state "ui-5").2 = CancelResp.cancelled ∧
     "e.jpg" ∉ (postCancel c5_state "ui-5").1.files ∧
     hasTask (postCancel c5_state "ui-5").1.scheduledTasks "ui-5" = false ∧
     ∀ tm ∈ (postCancel c5_state "ui-5").1.timers, tm.tid ≠ 5) ∧
    postCancel c5_state "ghost" = (c5_state, CancelResp.notFound) :=
  ⟨(c5_cancel_contract c5_state "ui-5").1 ⟨5, "e.jpg"⟩ (by decide)
      (by decide),
   (c5_cancel_contract c5_state "ghost").2 (by decide)⟩

/-! Concrete scenario for claim C6: the part_000 variant rejecting a request
that carries a file but an empty groupId field. -/

def c6_parse : String → Option Int :=
  fun s => if s == "T70" then some 70 else none

def c6_req : ScheduleRequest :=
  { file := some "orphan.jpg", groupId := "", scheduleTime := "T70",
    uiId := "ui-6" }

def c6_out : ServerState × ScheduleResp0 :=
  postSchedule0 c6_parse 0 1 initialState c6_req

/-- C6 counterexample: a request carrying a file but an empty groupId is
rejected as Missing required data WITHOUT deleting the just-uploaded file —
the rejection leaves an orphaned file in the upload directory. -/
theorem c6_missing_field_rejection_orphans_file :
    c6_out.2 = ScheduleResp0.missingData ∧
    "orphan.jpg" ∈ c6_out.1.files ∧
    c6_out.1.scheduledTasks = [] ∧
    c6_out.1.timers = [] := by decide

/-- C6 amended: a past-time rejection deletes the uploaded file before
answering, but the missing-field rejection returns without deleting it, so
that rejection path does leave an orphaned upload (the no-file rejection
involves no uploaded file). -/
theorem c6_amended_rejection_file_disposition
    (parseDate : String → Option Int) (now : Int) (freshTid : Nat)
    (σ : ServerState) (r : ScheduleRequest) (p : String)
    (hfile : r.file = some p) :
    (r.groupId = "" →
      (postSchedule0 parseDate now freshTid σ r).2 =
        ScheduleResp0.missingData ∧
      p ∈ (postSchedule0 parseDate now freshTid σ r).1.files) ∧
    (∀ t, r.groupId ≠ "" → r.scheduleTime ≠ "" → r.uiId ≠ "" →
      parseDate r.scheduleTime = some t → t < now →
      (postSchedule0 parseDate now freshTid σ r).2 =
        ScheduleResp0.pastTime0 ∧
      (postSchedule0 parseDate now freshTid σ r).1.files = σ.files) := by
  constructor
  · intro hg
    simp [postSchedule0, uploadStep, hfile, hg]
  · intro t hg hs hu hparse hpast
    have hneg : delayNegative parseDate r.scheduleTime now = true := by
      simp only [delayNegative, hparse, decide_eq_true_eq]
      omega
    simp [postSchedule0, uploadStep, hfile, hg, hs, hu, hneg,
      List.erase_cons_head]

def c6_pastReq : ScheduleRequest :=
  { file := some "late.jpg", groupId := "g@x", scheduleTime := "T70",
    uiId := "ui-6b" }

/-- Witness for the amended C6: the concrete missing-field rejection keeps
the file, and a concrete past-time rejection deletes it. -/
theorem c6_amended_rejection_file_disposition_witness :
    ((postSchedule0 c6_parse 0 1 initialState c6_req).2 =
        ScheduleResp0.missingData ∧
      "orphan.jpg" ∈ (postSchedule0 c6_parse 0 1 initialState
        c6_req).1.files) ∧
    ((postSchedule0 c6_parse 100 2 initialState c6_pastReq).2 =
        ScheduleResp0.pastTime0 ∧
      (postSchedule0 c6_parse 100 2 initialState c6_pastReq).1.files =
        initialState.files) :=
  ⟨(c6_amended_rejection_file_disposition c6_parse 0 1 initialState c6_req
      "orphan.jpg" rfl).1 rfl,
   (c6_amended_rejection_file_disposition c6_parse 100 2 initialState
      c6_pastReq "late.jpg" rfl).2 70 (by decide) (by decide) (by decide)
      rfl (by decide)⟩

/-- C7: when a timer fires while its task is still present in the registry
(with the payload file on disk) and the delivery succeeds, the payload is
sent to the task destination, a message_sent event carrying the task id is
emitted, the payload file is removed from disk, and the entry is removed
from the mapping. -/
theorem c7_fire_success_effects (σ : ServerState) (tm : Timer)
    (_harmed : tm ∈ σ.timers)
    (_htask : getTask σ.scheduledTasks tm.uiId = some ⟨tm.tid, tm.filePath⟩)
    (hfile : σ.files.contains tm.filePath = true) :
    (tm.groupId, tm.filePath) ∈ (fireTimer σ tm true).sentMessages ∧
    Event.message_sent tm.uiId ∈ (fireTimer σ tm true).events ∧
    hasTask (fireTimer σ tm true).scheduledTasks tm.uiId = false ∧
    (fireTimer σ tm true).files = σ.files.erase tm.filePath := by
  have hmem : tm.filePath ∈ σ.files := by simpa using hfile
  simp [fireTimer, fireBegin, fireCompleteSuccess, hmem, hasTask_eraseTask]

def c7_parse : String → Option Int :=
  fun s => if s == "T60" then some 60 else none

def c7_req : ScheduleRequest :=
  { file := some "photo7.jpg", groupId := "grp7@x", scheduleTime := "T60",
    uiId := "ui-7" }

def c7_state1 : ServerState :=
  (postSchedule c7_parse 0 6 initialState c7_req).1

def c7_timer : Timer :=
  { tid := 6, groupId := "grp7@x", filePath := "photo7.jpg", uiId := "ui-7",
    delay := 60 }

/-- Witness for C7 at a concretely scheduled task whose timer fires and
whose delivery succeeds. -/
theorem c7_fire_success_effects_witness :
    ("grp7@x", "photo7.jpg") ∈
      (fireTimer c7_state1 c7_timer true).sentMessages ∧
    Event.message_sent "ui-7" ∈ (fireTimer c7_state1 c7_timer true).events ∧
    hasTask (fireTimer c7_state1 c7_timer true).scheduledTasks "ui-7" =
      false ∧
    (fireTimer c7_state1 c7_timer true).files =
      c7_state1.files.erase "photo7.jpg" :=
  c7_fire_success_effects c7_state1 c7_timer (by decide) (by decide)
    (by decide)

/-! Concrete scenario for claim C8: a schedule request with three of the
four inputs invalid. -/

def c8_req : ScheduleRequest :=
  { file := some "d.jpg", groupId := "", scheduleTime := "garbage",
    uiId := "" }

def c8_out : ServerState × ScheduleResp :=
  postSchedule (fun _ => none) 0 8 initialState c8_req

/-- C8 counterexample: in src/server.js a request with an empty destination,
an empty id and an unparseable scheduleTime — three invalid inputs — is
accepted and a task is created with an armed timer, refuting the claim that
every request with an invalid input is rejected. -/
theorem c8_invalid_inputs_accepted :
    c8_out.2 = ScheduleResp.scheduled "" ∧
    hasTask c8_out.1.scheduledTasks "" = true ∧
    c8_out.1.timers ≠ [] := by decide

/-- C8 amended: src/server.js validates only that a file is present and that
a parseable triggerAt is not strictly past — any request with a file and a
non-negative (or NaN) delay is accepted whatever the destination and id;
the part_000 variant additionally rejects empty destination, time string or
id, but still accepts an unparseable non-empty triggerAt. -/
theorem c8_amended_validation (parseDate : String → Option Int) (now : Int)
    (freshTid : Nat) (σ : ServerState) (r : ScheduleRequest) :
    (r.file = none →
      (postSchedule parseDate now freshTid σ r).2 = ScheduleResp.noFile) ∧
    (∀ p, r.file = some p →
      delayNegative parseDate r.scheduleTime now = false →
      (postSchedule parseDate now freshTid σ r).2 =
        ScheduleResp.scheduled r.uiId) ∧
    (∀ p, r.file = some p → r.groupId ≠ "" → r.scheduleTime ≠ "" →
      r.uiId ≠ "" → parseDate r.scheduleTime = none →
      (postSchedule0 parseDate now freshTid σ r).2 =
        ScheduleResp0.scheduled0 r.uiId) := by
  refine ⟨?_, ?_, ?_⟩
  · intro hf
    simp [postSchedule, uploadStep, hf]
  · intro p hf hnp
    simp [postSchedule, uploadStep, hf, hnp]
  · intro p hf hg hs hu hnan
    simp [postSchedule0, uploadStep, hf, hg, hs, hu, delayNegative, hnan]

def c8_noFileReq : ScheduleRequest :=
  { file := none, groupId := "g@x", scheduleTime := "T10", uiId := "ui-8a" }

def c8_req0 : ScheduleRequest :=
  { file := some "d8.jpg", groupId := "g@x", scheduleTime := "junk",
    uiId := "ui-8" }

/-- Witness for the amended C8: no-file is rejected, the three-invalid-input
request is accepted by server.js, and an unparseable non-empty time with a
file and non-empty fields is accepted by the part_000 variant. -/
theorem c8_amended_validation_witness :
    (postSchedule (fun _ => none) 0 8 initialState c8_noFileReq).2 =
      ScheduleResp.noFile ∧
    (postSchedule (fun _ => none) 0 8 initialState c8_req).2 =
      ScheduleResp.scheduled "" ∧
    (postSchedule0 (fun _ => none) 0 8 initialState c8_req0).2 =
      ScheduleResp0.scheduled0 "ui-8" :=
  ⟨(c8_amended_validation (fun _ => none) 0 8 initialState c8_noFileReq).1
      rfl,
   (c8_amended_validation (fun _ => none) 0 8 initialState c8_req).2.1
      "d.jpg" rfl (by decide),
   (c8_amended_validation (fun _ => none) 0 8 initialState c8_req0).2.2
      "d8.jpg" rfl (by decide) (by decide) (by decide) rfl⟩

end WaSched
